import Mathlib

/-!
Shallow embedding of the SIMD-intrinsic lowering stage found in
`compiler/rustc_codegen_cranelift/src/intrinsics/simd.rs` (function
`codegen_simd_intrinsic_call` and `report_simd_type_validation_error`),
together with theorems checking the specification's claims about it.

Machine integers are modelled as `Nat` bit patterns with explicit `% 2^w`
where wrap-around matters; float lanes are modelled as `Option ℚ`, with
`none` standing for NaN (the only float special value the checked claims
depend on); fallible lowering returns an explicit outcome type.
-/

/-- Lane kind of a SIMD vector type: `ty::Uint`, `ty::Int` or `ty::Float`
with its bit width, as dispatched on by `lane_ty.kind()` in the source. -/
inductive LaneKind where
  | uint (width : Nat)
  | int (width : Nat)
  | float (width : Nat)
deriving DecidableEq

/-- `lane_ty.is_floating_point()`. -/
def LaneKind.is_floating_point : LaneKind → Bool
  | .float _ => true
  | _ => false

/-- The shape of a SIMD vector type: the pair returned by
`ty.simd_size_and_type(fx.tcx)` in the source (`lane_count`, `lane_kind`). -/
structure VectorType where
  lane_count : Nat
  lane_kind : LaneKind
deriving DecidableEq

/-- The monomorphized type of an intrinsic operand: either a SIMD vector
type, or a non-vector type carrying its display name for diagnostics. -/
inductive OpTy where
  | vector (vt : VectorType)
  | scalar (name : String)
deriving DecidableEq

/-- `ty.is_simd()` as used by the validation checks in the source. -/
def OpTy.is_simd : OpTy → Bool
  | .vector _ => true
  | .scalar _ => false

/-- Display name of a type, as interpolated into diagnostics. -/
def OpTy.display : OpTy → String
  | .vector _ => "simd"
  | .scalar s => s

/-- Modelled from the spec: `Ty::simd_size_and_type` lives outside this
file (rustc_middle); per the spec's data model it yields the lane count and
lane kind of a SIMD vector type, and on a non-SIMD type it is an internal
error (spec section 7, category 3: abort loudly), modelled as `none`. -/
def simd_size_and_type : OpTy → Option (Nat × LaneKind)
  | .vector vt => some (vt.lane_count, vt.lane_kind)
  | .scalar _ => none

/-- Panic message used where a caller hits `simd_size_and_type` on a
non-SIMD type (internal error, not a user diagnostic). -/
def simd_size_panic_msg : String :=
  "simd_size_and_type: not a SIMD type"

/-- An intrinsic operand: its monomorphized type plus its lane values.
`α` models the scalar lane values carried by `CValue` lanes. -/
structure Operand (α : Type) where
  ty : OpTy
  lanes : List α
deriving DecidableEq

/-- Diagnostic severity: `sess.span_err` vs `sess.span_warn`. -/
inductive Severity where
  | err
  | warn
deriving DecidableEq

/-- A diagnostic recorded at the call's source span. -/
structure Diag where
  sev : Severity
  msg : String
deriving DecidableEq

/-- Outcome of lowering one SIMD intrinsic call:
* `ok val` — the result lanes/scalar were written to the destination;
* `trap d` — diagnostic `d` was reported and a trap / placeholder trap
  value was emitted, lowering of this call only was aborted and
  compilation continues (`report_simd_type_validation_error`,
  `trap_unimplemented_ret_value`);
* `fatal msg` — `sess.span_fatal`: the whole compilation unit ends after
  reporting the diagnostic `msg`;
* `panicked msg` — `assert!` / `.expect(..)` / `unreachable!`: an
  internal compiler panic (not a user diagnostic). -/
inductive LowerResult (α : Type) where
  | ok (val : α)
  | trap (d : Diag)
  | fatal (msg : String)
  | panicked (msg : String)
deriving DecidableEq

/-- Whether an outcome is a `span_fatal` user-facing fatal diagnostic. -/
def LowerResult.isFatalDiag : LowerResult α → Bool
  | .fatal _ => true
  | _ => false

/-- The message format of `report_simd_type_validation_error` (line 15). -/
def simd_validation_msg (intrinsic : String) (ty : String) : String :=
  "invalid monomorphization of `" ++ intrinsic ++
    "` intrinsic: expected SIMD input type, found non-SIMD `" ++ ty ++ "`"

/-- `report_simd_type_validation_error` (lines 9-18): `span_err` with the
message above, then `trap_unreachable` so the verifier stays happy;
lowering of this call is aborted, compilation continues. -/
def report_simd_type_validation_error (intrinsic : String) (ty : OpTy) : Diag :=
  ⟨.err, simd_validation_msg intrinsic ty.display⟩

/-- Lines 167-175 of the shuffle arm: each of the u32 index values read
from the constant's bytes is narrowed with `u16::try_from(idx).expect("try_from u32")`;
a value that does not fit in 16 bits panics with that message before any
range validation happens. -/
def readShuffleIndexes : List Nat → Except String (List Nat)
  | [] => .ok []
  | i :: rest =>
    if i < 65536 then
      match readShuffleIndexes rest with
      | .ok rest2 => .ok (i :: rest2)
      | .error e => .error e
    else .error "try_from u32"

/-- Lines 177-179 of the shuffle arm:
`assert!(u64::from(idx) < total_len, "idx {} out of range 0..{}", idx, total_len)`
over every index, before any output lane is written. -/
def checkShuffleIndexes (total_len : Nat) : List Nat → Except String Unit
  | [] => .ok ()
  | i :: rest =>
    if i < total_len then checkShuffleIndexes total_len rest
    else .error ("idx " ++ toString i ++ " out of range 0.." ++ toString total_len)

/-- The `simd_shuffle*` arm (lines 109-190). `n` is the output lane count
(from the name suffix or the index-array length, lines 115-142, already
determined here); `idxConst` models `mir_operand_get_const_val` on the
index operand followed by the byte read: `none` when the operand is not a
compile-time constant (the source then panics via
`.expect("simd_shuffle* idx not const")`, line 157), otherwise the list of
u32 values read from the constant's bytes (its length equals `n`, the
size read by `get_bytes`). `ret_ty` is the shape of the destination.
`d` is an arbitrary default never reached on validated in-bounds reads. -/
def codegen_simd_shuffle (n : Nat) (x y : Operand α) (idxConst : Option (List Nat))
    (ret_ty : VectorType) (d : α) : LowerResult (List α) :=
  if x.ty.is_simd = false then
    .trap (report_simd_type_validation_error "simd_shuffle" x.ty)
  else if x.ty ≠ y.ty then
    .panicked "assertion failed: x.layout() == y.layout()"
  else
    match simd_size_and_type x.ty with
    | none => .panicked simd_size_panic_msg
    | some (lane_count, lane_kind) =>
      if lane_kind ≠ ret_ty.lane_kind then
        .panicked "assertion failed: lane_ty == ret_lane_ty"
      else if n ≠ ret_ty.lane_count then
        .panicked "assertion failed: u64::from(n) == ret_lane_count"
      else
        match idxConst with
        | none => .panicked "simd_shuffle* idx not const"
        | some raw =>
          match readShuffleIndexes raw with
          | .error e => .panicked e
          | .ok indexes =>
            match checkShuffleIndexes (lane_count * 2) indexes with
            | .error e => .panicked e
            | .ok _ =>
              .ok (indexes.map fun idx =>
                if idx < lane_count then x.lanes.getD idx d
                else y.lanes.getD (idx - lane_count) d)

/-- The `simd_insert` arm (lines 192-212). Note the source's
`// FIXME validate` comment: unlike every other arm, no `is_simd`
validation of `base` is performed. `idxConst` models
`mir_operand_get_const_val` + `try_to_bits`: `none` when the index operand
is not a compile-time constant (then `span_fatal`, lines 197-200). On a
valid index the base is copied to the destination wholesale and lane
`idx` is overwritten with `val`. -/
def codegen_simd_insert (idxConst : Option Nat) (base : Operand α) (val : α) :
    LowerResult (List α) :=
  match idxConst with
  | none => .fatal "Index argument for `simd_insert` is not a constant"
  | some idx =>
    match simd_size_and_type base.ty with
    | none => .panicked simd_size_panic_msg
    | some (lane_count, _) =>
      if lane_count ≤ idx then
        .fatal ("[simd_insert] idx " ++ toString idx ++ " >= lane_count " ++
          toString lane_count)
      else .ok (base.lanes.set idx val)

/-- The `simd_extract` arm (lines 214-244). Validates that `v` is a SIMD
vector; a non-constant index is recoverable: `span_warn` plus a
well-typed placeholder trap value written to the destination
(`trap_unimplemented_ret_value`), so compilation continues. Otherwise the
index is range checked (`span_fatal` if out of range) and lane `idx` of
`v` is read and written to the destination. -/
def codegen_simd_extract (idxConst : Option Nat) (v : Operand α) (d : α) :
    LowerResult α :=
  if v.ty.is_simd = false then
    .trap (report_simd_type_validation_error "simd_extract" v.ty)
  else
    match idxConst with
    | none => .trap ⟨.warn, "Index argument for `simd_extract` is not a constant"⟩
    | some idx =>
      match simd_size_and_type v.ty with
      | none => .panicked simd_size_panic_msg
      | some (lane_count, _) =>
        if lane_count ≤ idx then
          .fatal ("[simd_extract] idx " ++ toString idx ++ " >= lane_count " ++
            toString lane_count)
        else .ok (v.lanes.getD idx d)

/-- The `simd_select` arm (lines 520-544). Validates that `m` and `a` are
SIMD vectors, asserts `a.layout() == b.layout()` (note: nothing relates
`m`'s layout to `a`'s), then per lane `0..lane_count` (taken from `a`)
computes `m_lane = icmp_imm(Equal, m_lane, 0)` and
`select(m_lane, b_lane, a_lane)`: lane `i` of the output is `b.lanes[i]`
when `m.lanes[i] = 0` and `a.lanes[i]` otherwise, with no dependence on
any other lane. `d` is an arbitrary default never reached on in-bounds
lane reads. -/
def codegen_simd_select (m : Operand Nat) (a b : Operand α) (d : α) :
    LowerResult (List α) :=
  if m.ty.is_simd = false then
    .trap (report_simd_type_validation_error "simd_select" m.ty)
  else if a.ty.is_simd = false then
    .trap (report_simd_type_validation_error "simd_select" a.ty)
  else if a.ty ≠ b.ty then
    .panicked "assertion failed: a.layout() == b.layout()"
  else
    match simd_size_and_type a.ty with
    | none => .panicked simd_size_panic_msg
    | some (lane_count, _) =>
      .ok ((List.range lane_count).map fun lane =>
        if m.lanes.getD lane 0 = 0 then b.lanes.getD lane d
        else a.lanes.getD lane d)

/-- The `simd_fma` arm (lines 318-342). Validates that `a` is a SIMD
vector, asserts `a.layout() == b.layout()` and `a.layout() == c.layout()`
and `lane_count == ret_lane_count`, then per lane computes
`fadd(fmul(a_lane, b_lane), c_lane)`. `fmul`/`fadd` model the float
instructions `fx.bcx.ins().fmul` / `fadd`. -/
def codegen_simd_fma (fmul fadd : α → α → α) (a b c : Operand α)
    (ret_ty : VectorType) (d : α) : LowerResult (List α) :=
  if a.ty.is_simd = false then
    .trap (report_simd_type_validation_error "simd_fma" a.ty)
  else if a.ty ≠ b.ty then
    .panicked "assertion failed: a.layout() == b.layout()"
  else if a.ty ≠ c.ty then
    .panicked "assertion failed: a.layout() == c.layout()"
  else
    match simd_size_and_type a.ty with
    | none => .panicked simd_size_panic_msg
    | some (lane_count, _) =>
      if lane_count ≠ ret_ty.lane_count then
        .panicked "assertion failed: lane_count == ret_lane_count"
      else
        .ok ((List.range lane_count).map fun lane =>
          fadd (fmul (a.lanes.getD lane d) (b.lanes.getD lane d))
            (c.lanes.getD lane d))

/-- Cranelift integer condition codes used by the comparison arm. -/
inductive IntCC where
  | Equal
  | NotEqual
  | UnsignedLessThan
  | UnsignedLessThanOrEqual
  | UnsignedGreaterThan
  | UnsignedGreaterThanOrEqual
  | SignedLessThan
  | SignedLessThanOrEqual
  | SignedGreaterThan
  | SignedGreaterThanOrEqual
deriving DecidableEq

/-- Cranelift float condition codes used by the comparison arm.
`NotEqual` is unordered-or-not-equal; the other five are ordered. -/
inductive FloatCC where
  | Equal
  | NotEqual
  | LessThan
  | LessThanOrEqual
  | GreaterThan
  | GreaterThanOrEqual
deriving DecidableEq

/-- Two's-complement reinterpretation of a `w`-bit pattern as an integer. -/
def toSigned (w : Nat) (x : Nat) : Int :=
  if x < 2 ^ (w - 1) then (x : Int) else (x : Int) - 2 ^ w

/-- Cranelift `icmp` on `w`-bit integer lane patterns. -/
def icmp (w : Nat) (cc : IntCC) (x y : Nat) : Bool :=
  match cc with
  | .Equal => decide (x = y)
  | .NotEqual => decide (x ≠ y)
  | .UnsignedLessThan => decide (x < y)
  | .UnsignedLessThanOrEqual => decide (x ≤ y)
  | .UnsignedGreaterThan => decide (y < x)
  | .UnsignedGreaterThanOrEqual => decide (y ≤ x)
  | .SignedLessThan => decide (toSigned w x < toSigned w y)
  | .SignedLessThanOrEqual => decide (toSigned w x ≤ toSigned w y)
  | .SignedGreaterThan => decide (toSigned w y < toSigned w x)
  | .SignedGreaterThanOrEqual => decide (toSigned w y ≤ toSigned w x)

/-- Cranelift `fcmp` on float lanes (`none` = NaN): every comparison
involving NaN is unordered, hence false, except `NotEqual` which is
unordered-or-not-equal and hence true. -/
def fcmp (cc : FloatCC) (x y : Option ℚ) : Bool :=
  match x, y with
  | some a, some b =>
    match cc with
    | .Equal => decide (a = b)
    | .NotEqual => decide (a ≠ b)
    | .LessThan => decide (a < b)
    | .LessThanOrEqual => decide (a ≤ b)
    | .GreaterThan => decide (b < a)
    | .GreaterThanOrEqual => decide (b ≤ a)
  | _, _ =>
    match cc with
    | .NotEqual => true
    | _ => false

/-- The six comparison intrinsics of the `simd_eq | ... | simd_ge` arm. -/
inductive CmpIntrinsic where
  | simd_eq
  | simd_ne
  | simd_lt
  | simd_le
  | simd_gt
  | simd_ge
deriving DecidableEq

/-- Condition code chosen for `ty::Uint` lanes (lines 59-72). -/
def cmp_cc_uint : CmpIntrinsic → IntCC
  | .simd_eq => .Equal
  | .simd_ne => .NotEqual
  | .simd_lt => .UnsignedLessThan
  | .simd_le => .UnsignedLessThanOrEqual
  | .simd_gt => .UnsignedGreaterThan
  | .simd_ge => .UnsignedGreaterThanOrEqual

/-- Condition code chosen for `ty::Int` lanes (lines 74-85). -/
def cmp_cc_sint : CmpIntrinsic → IntCC
  | .simd_eq => .Equal
  | .simd_ne => .NotEqual
  | .simd_lt => .SignedLessThan
  | .simd_le => .SignedLessThanOrEqual
  | .simd_gt => .SignedGreaterThan
  | .simd_ge => .SignedGreaterThanOrEqual

/-- Condition code chosen for `ty::Float` lanes (lines 87-96). -/
def cmp_cc_float : CmpIntrinsic → FloatCC
  | .simd_eq => .Equal
  | .simd_ne => .NotEqual
  | .simd_lt => .LessThan
  | .simd_le => .LessThanOrEqual
  | .simd_gt => .GreaterThan
  | .simd_ge => .GreaterThanOrEqual

/-- A scalar lane value: an integer bit pattern or a float (`none` = NaN). -/
inductive LaneVal where
  | intLane (bits : Nat)
  | floatLane (val : Option ℚ)
deriving DecidableEq

/-- Cranelift `bint`: booleans become `1` or `0` at the result type. -/
def bint (b : Bool) : Nat :=
  if b then 1 else 0

/-- Cranelift `ineg` on a `w`-bit pattern: two's-complement negation. -/
def ineg (w : Nat) (x : Nat) : Nat :=
  (2 ^ w - x) % 2 ^ w

/-- The per-lane closure of the comparison arm (lines 57-105): pick the
condition code from the lane kind and intrinsic, compare, then
`bint` into the result lane type of width `rw` and `ineg` the 0/1 into an
all-zeros/all-ones mask. A lane-kind/value mismatch is the source's
`unreachable!()`, modelled as `none`. -/
def codegen_cmp_lane (rw : Nat) (kind : LaneKind) (op : CmpIntrinsic)
    (x y : LaneVal) : Option Nat :=
  match kind, x, y with
  | .uint w, .intLane a, .intLane b =>
    some (ineg rw (bint (icmp w (cmp_cc_uint op) a b)))
  | .int w, .intLane a, .intLane b =>
    some (ineg rw (bint (icmp w (cmp_cc_sint op) a b)))
  | .float _, .floatLane a, .floatLane b =>
    some (ineg rw (bint (fcmp (cmp_cc_float op) a b)))
  | _, _, _ => none

/-- Modelled from the spec: the helper `simd_reduce` is defined in
`intrinsics/mod.rs`, which is not under the sources here; per the spec's
Reduction Engine contract, with a seed the fold begins as
`combinator(seed, lane[0])` and proceeds left-to-right through the
remaining lanes, and with no seed it starts from `lane[0]` and combines
`lane[1..]` in index order. An empty vector (excluded by the data model's
`lane_count ≥ 1`) has no seedless fold, modelled as `none`. -/
def simd_reduce (f : α → α → α) (acc : Option α) (lanes : List α) : Option α :=
  match acc with
  | some s => some (lanes.foldl f s)
  | none =>
    match lanes with
    | [] => none
    | l0 :: rest => some (rest.foldl f l0)

/-- The single arm `simd_reduce_add_ordered | simd_reduce_add_unordered`
(lines 411-424): both intrinsic names run this one body, which calls
`simd_reduce` with the accumulator as seed and a combinator that is
`fadd` on float lanes and `iadd` otherwise. `intrinsic` is the name the
dispatcher matched (it only reaches the validation diagnostic). -/
def codegen_simd_reduce_add (intrinsic : String) (fadd iadd : α → α → α)
    (v : Operand α) (acc : α) : LowerResult α :=
  if v.ty.is_simd = false then
    .trap (report_simd_type_validation_error intrinsic v.ty)
  else
    match simd_size_and_type v.ty with
    | none => .panicked simd_size_panic_msg
    | some (_, kind) =>
      match simd_reduce
          (fun a b => if kind.is_floating_point then fadd a b else iadd a b)
          (some acc) v.lanes with
      | some r => .ok r
      | none => .panicked "reduce on empty vector"

/-- The `simd_reduce_add_ordered` entry point (same arm as unordered). -/
def codegen_simd_reduce_add_ordered (fadd iadd : α → α → α)
    (v : Operand α) (acc : α) : LowerResult α :=
  codegen_simd_reduce_add "simd_reduce_add_ordered" fadd iadd v acc

/-- The `simd_reduce_add_unordered` entry point (same arm as ordered). -/
def codegen_simd_reduce_add_unordered (fadd iadd : α → α → α)
    (v : Operand α) (acc : α) : LowerResult α :=
  codegen_simd_reduce_add "simd_reduce_add_unordered" fadd iadd v acc

/-- The single arm `simd_reduce_mul_ordered | simd_reduce_mul_unordered`
(lines 426-439): one body for both names, `fmul` on float lanes and
`imul` otherwise, seeded with the accumulator. -/
def codegen_simd_reduce_mul (intrinsic : String) (fmul imul : α → α → α)
    (v : Operand α) (acc : α) : LowerResult α :=
  if v.ty.is_simd = false then
    .trap (report_simd_type_validation_error intrinsic v.ty)
  else
    match simd_size_and_type v.ty with
    | none => .panicked simd_size_panic_msg
    | some (_, kind) =>
      match simd_reduce
          (fun a b => if kind.is_floating_point then fmul a b else imul a b)
          (some acc) v.lanes with
      | some r => .ok r
      | none => .panicked "reduce on empty vector"

/-- The `simd_reduce_mul_ordered` entry point (same arm as unordered). -/
def codegen_simd_reduce_mul_ordered (fmul imul : α → α → α)
    (v : Operand α) (acc : α) : LowerResult α :=
  codegen_simd_reduce_mul "simd_reduce_mul_ordered" fmul imul v acc

/-- The `simd_reduce_mul_unordered` entry point (same arm as ordered). -/
def codegen_simd_reduce_mul_unordered (fmul imul : α → α → α)
    (v : Operand α) (acc : α) : LowerResult α :=
  codegen_simd_reduce_mul "simd_reduce_mul_unordered" fmul imul v acc

/-- The combinator of the `simd_reduce_min` arm on float lanes
(lines 492-500): `lt = fcmp(LessThan, a, b)` then `select(lt, a, b)`,
i.e. keep `a` exactly when the ordered less-than comparison holds and
keep `b` otherwise (in particular whenever a NaN makes it unordered). -/
def reduce_min_comb_float (a b : Option ℚ) : Option ℚ :=
  if fcmp .LessThan a b then a else b

/-- The combinator of the `simd_reduce_max` arm on float lanes
(lines 509-517): `gt = fcmp(GreaterThan, a, b)` then `select(gt, a, b)`. -/
def reduce_max_comb_float (a b : Option ℚ) : Option ℚ :=
  if fcmp .GreaterThan a b then a else b

/-- The combinator of `simd_reduce_min` on `w`-bit signed integer lanes:
`icmp(SignedLessThan, a, b)` then `select`. -/
def reduce_min_comb_sint (w : Nat) (a b : Nat) : Nat :=
  if icmp w .SignedLessThan a b then a else b

/-- The combinator of `simd_reduce_min` on `w`-bit unsigned integer
lanes: `icmp(UnsignedLessThan, a, b)` then `select`. -/
def reduce_min_comb_uint (w : Nat) (a b : Nat) : Nat :=
  if icmp w .UnsignedLessThan a b then a else b

/-- The `simd_reduce_min` arm (lines 486-501) on a float-laned vector:
validation, then a seedless `simd_reduce` with the compare-and-select
combinator. -/
def codegen_simd_reduce_min_float (v : Operand (Option ℚ)) :
    LowerResult (Option ℚ) :=
  if v.ty.is_simd = false then
    .trap (report_simd_type_validation_error "simd_reduce_min" v.ty)
  else
    match simd_reduce reduce_min_comb_float none v.lanes with
    | some r => .ok r
    | none => .panicked "reduce on empty vector"

/-- The `simd_reduce_max` arm (lines 503-518) on a float-laned vector. -/
def codegen_simd_reduce_max_float (v : Operand (Option ℚ)) :
    LowerResult (Option ℚ) :=
  if v.ty.is_simd = false then
    .trap (report_simd_type_validation_error "simd_reduce_max" v.ty)
  else
    match simd_reduce reduce_max_comb_float none v.lanes with
    | some r => .ok r
    | none => .panicked "reduce on empty vector"

/-- List of characters `needle` occurs contiguously inside `hay`. -/
def containsSub (hay needle : List Char) : Bool :=
  hay.tails.any needle.isPrefixOf

/-- A diagnostic message cites the number `k` when `k`'s decimal
rendering occurs inside it. -/
def citesNat (msg : String) (k : Nat) : Bool :=
  containsSub msg.data (toString k).data

/-- Whether an outcome is the recoverable diagnostic-plus-trap path. -/
def LowerResult.isTrap : LowerResult α → Bool
  | .trap _ => true
  | _ => false

/-- Whether an outcome wrote a result to the destination. -/
def LowerResult.isOk : LowerResult α → Bool
  | .ok _ => true
  | _ => false

/-- All-ones bit pattern of width `w`. -/
def allOnes (w : Nat) : Nat := 2 ^ w - 1

/-- Comparison semantics of the claims' wording, on mathematical
integers: the relation each of the six comparison intrinsics denotes. -/
def cmpRelInt (op : CmpIntrinsic) (x y : Int) : Bool :=
  match op with
  | .simd_eq => decide (x = y)
  | .simd_ne => decide (x ≠ y)
  | .simd_lt => decide (x < y)
  | .simd_le => decide (x ≤ y)
  | .simd_gt => decide (y < x)
  | .simd_ge => decide (y ≤ x)

/-- Comparison semantics of the claims' wording on ordered (non-NaN)
float values. -/
def cmpRelQ (op : CmpIntrinsic) (x y : ℚ) : Bool :=
  match op with
  | .simd_eq => decide (x = y)
  | .simd_ne => decide (x ≠ y)
  | .simd_lt => decide (x < y)
  | .simd_le => decide (x ≤ y)
  | .simd_gt => decide (y < x)
  | .simd_ge => decide (y ≤ x)

/-- IEEE comparison semantics of the claims' wording on float lanes
(`none` = NaN): NaN makes every comparison unordered, so only the
not-equal intrinsic holds. -/
def cmpRelFloat (op : CmpIntrinsic) (x y : Option ℚ) : Bool :=
  match x, y with
  | some a, some b => cmpRelQ op a b
  | _, _ => decide (op = .simd_ne)

theorem readShuffleIndexes_ok (raw : List Nat) (h : ∀ i ∈ raw, i < 65536) :
    readShuffleIndexes raw = .ok raw := by
  induction raw with
  | nil => rfl
  | cons i rest ih =>
    have hi : i < 65536 := h i (by simp)
    have hr : readShuffleIndexes rest = .ok rest :=
      ih fun j hj => h j (by simp [hj])
    simp [readShuffleIndexes, hi, hr]

theorem checkShuffleIndexes_ok (total : Nat) (l : List Nat)
    (h : ∀ i ∈ l, i < total) : checkShuffleIndexes total l = .ok () := by
  induction l with
  | nil => rfl
  | cons j rest ih =>
    have hj : j < total := h j (by simp)
    have hr := ih fun i hi => h i (by simp [hi])
    simp [checkShuffleIndexes, hj, hr]

theorem checkShuffleIndexes_err (total : Nat) (l : List Nat)
    (h : ∃ i ∈ l, total ≤ i) :
    ∃ i ∈ l, total ≤ i ∧ checkShuffleIndexes total l =
      .error ("idx " ++ toString i ++ " out of range 0.." ++ toString total) := by
  induction l with
  | nil => simp at h
  | cons j rest ih =>
    by_cases hj : j < total
    · obtain ⟨i, hmem, hti⟩ := h
      have hir : i ∈ rest := by
        rcases List.mem_cons.mp hmem with h1 | h1
        · exact absurd (h1 ▸ hti) (Nat.not_le.mpr hj)
        · exact h1
      obtain ⟨i2, hmem2, ht2, herr2⟩ := ih ⟨i, hir, hti⟩
      exact ⟨i2, List.mem_cons_of_mem _ hmem2, ht2, by
        simp [checkShuffleIndexes, hj, herr2]⟩
    · exact ⟨j, by simp, Nat.le_of_not_lt hj, by simp [checkShuffleIndexes, hj]⟩

theorem range_map_getD (n i : Nat) (f : Nat → β) (d : β) (h : i < n) :
    ((List.range n).map f).getD i d = f i := by
  simp [List.getD_eq_getElem?_getD, List.getElem?_map, List.getElem?_range, h]

theorem getD_set_self (l : List β) (i : Nat) (a d : β) (h : i < l.length) :
    (l.set i a).getD i d = a := by
  simp [List.getD_eq_getElem?_getD, List.getElem?_set_self, h]

theorem getD_set_ne (l : List β) (i j : Nat) (a d : β) (hne : j ≠ i) :
    (l.set i a).getD j d = l.getD j d := by
  simp [List.getD_eq_getElem?_getD, List.getElem?_set_ne (Ne.symm hne)]

theorem cmp_mask_lane_eq (rw : Nat) (b : Bool) :
    ineg rw (bint b) = if b then allOnes rw else 0 := by
  have hpos : 0 < 2 ^ rw := Nat.two_pow_pos rw
  cases b
  · simp [ineg, bint]
  · simp only [ineg, bint, allOnes, if_true]
    exact Nat.mod_eq_of_lt (Nat.sub_lt hpos one_pos)

/-- C1 (amended): for every shuffle of two vectors of identical shape with
a compile-time constant index list in which every index `idx` satisfies
`idx < 2 * lane_count` and fits the 16-bit narrowing (`idx < 65536`,
always the case once `lane_count ≤ 2 ^ 15`), output lane `i` receives lane
`indexes[i]` of `x` when `indexes[i] < lane_count` and lane
`indexes[i] - lane_count` of `y` otherwise. -/
theorem c1_shuffle_gather_amended (n : Nat) (vt ret_ty : VectorType)
    (x y : Operand α) (raw : List Nat) (d : α)
    (hx : x.ty = .vector vt) (hy : y.ty = x.ty)
    (hkind : vt.lane_kind = ret_ty.lane_kind) (hn : n = ret_ty.lane_count)
    (_hlen : raw.length = n)
    (hrange : ∀ i ∈ raw, i < vt.lane_count * 2)
    (hfit : ∀ i ∈ raw, i < 65536) :
    codegen_simd_shuffle n x y (some raw) ret_ty d =
      .ok (raw.map fun idx =>
        if idx < vt.lane_count then x.lanes.getD idx d
        else y.lanes.getD (idx - vt.lane_count) d) := by
  have hread := readShuffleIndexes_ok raw hfit
  have hcheck := checkShuffleIndexes_ok (vt.lane_count * 2) raw hrange
  simp [codegen_simd_shuffle, hx, hy, hkind, hn, simd_size_and_type,
    OpTy.is_simd, hread, hcheck]

/-- Witness for C1: the spec's concrete example, `x = [1,2,3,4]`,
`y = [5,6,7,8]`, indices `[0,4,3,7]`, gives output `[1,5,4,8]`. -/
theorem c1_shuffle_gather_amended_witness :
    codegen_simd_shuffle 4
      (⟨.vector ⟨4, .int 32⟩, [1, 2, 3, 4]⟩ : Operand Nat)
      ⟨.vector ⟨4, .int 32⟩, [5, 6, 7, 8]⟩
      (some [0, 4, 3, 7]) ⟨4, .int 32⟩ 0 = .ok [1, 5, 4, 8] := by
  have h := c1_shuffle_gather_amended 4 ⟨4, .int 32⟩ ⟨4, .int 32⟩
    (⟨.vector ⟨4, .int 32⟩, [1, 2, 3, 4]⟩ : Operand Nat)
    ⟨.vector ⟨4, .int 32⟩, [5, 6, 7, 8]⟩ [0, 4, 3, 7] 0
    rfl rfl rfl rfl rfl (by decide) (by decide)
  rw [h]
  rfl

/-- Counterexample to C1 as stated: with `lane_count = 32769` the index
`65536` satisfies `idx < 2 * lane_count` (`65536 < 65538`), yet lowering
panics in the u16 narrowing (`u16::try_from(idx).expect("try_from u32")`)
instead of writing lane `65536 - 32769` of `y` to the output. -/
theorem c1_shuffle_large_index_counterexample :
    codegen_simd_shuffle 1
      (⟨.vector ⟨32769, .int 32⟩, List.replicate 32769 0⟩ : Operand Nat)
      ⟨.vector ⟨32769, .int 32⟩, List.replicate 32769 7⟩
      (some [65536]) ⟨1, .int 32⟩ 0 = .panicked "try_from u32" ∧
    65536 < 32769 * 2 ∧
    (codegen_simd_shuffle 1
      (⟨.vector ⟨32769, .int 32⟩, List.replicate 32769 0⟩ : Operand Nat)
      ⟨.vector ⟨32769, .int 32⟩, List.replicate 32769 7⟩
      (some [65536]) ⟨1, .int 32⟩ 0).isOk = false :=
  ⟨rfl, by decide, rfl⟩

/-- C6 (amended): a shuffle whose constant index list contains a value
`idx` with `2 * lane_count ≤ idx` is rejected before any output lane is
written, by a compilation-ending assertion whose message cites the
offending index value and the valid bound `2 * lane_count` — provided
every index fits the preceding 16-bit narrowing (`idx < 65536`); an index
`≥ 65536` is rejected even earlier, by the narrowing panic, whose message
cites neither the index nor the bound. -/
theorem c6_shuffle_bounds_amended (n : Nat) (vt ret_ty : VectorType)
    (x y : Operand α) (raw : List Nat) (d : α)
    (hx : x.ty = .vector vt) (hy : y.ty = x.ty)
    (hkind : vt.lane_kind = ret_ty.lane_kind) (hn : n = ret_ty.lane_count)
    (hfit : ∀ i ∈ raw, i < 65536)
    (hbad : ∃ i ∈ raw, vt.lane_count * 2 ≤ i) :
    ∃ i ∈ raw, vt.lane_count * 2 ≤ i ∧
      codegen_simd_shuffle n x y (some raw) ret_ty d =
        .panicked ("idx " ++ toString i ++ " out of range 0.." ++
          toString (vt.lane_count * 2)) ∧
      (codegen_simd_shuffle n x y (some raw) ret_ty d).isOk = false := by
  obtain ⟨i, hmem, hge, herr⟩ := checkShuffleIndexes_err (vt.lane_count * 2) raw hbad
  have hread := readShuffleIndexes_ok raw hfit
  refine ⟨i, hmem, hge, ?_⟩
  constructor
  · simp [codegen_simd_shuffle, hx, hy, hkind, hn, simd_size_and_type,
      OpTy.is_simd, hread, herr]
  · simp [codegen_simd_shuffle, hx, hy, hkind, hn, simd_size_and_type,
      OpTy.is_simd, hread, herr, LowerResult.isTrap, LowerResult.isOk]

/-- Witness for C6: the spec's concrete example, index `8` with
`lane_count = 4`, is rejected by the assertion citing `8` and the bound
`8`. -/
theorem c6_shuffle_bounds_amended_witness :
    ∃ i ∈ [0, 8, 3, 7], 4 * 2 ≤ i ∧
      codegen_simd_shuffle 4 (⟨.vector ⟨4, .int 32⟩, [1, 2, 3, 4]⟩ : Operand Nat)
        ⟨.vector ⟨4, .int 32⟩, [5, 6, 7, 8]⟩ (some [0, 8, 3, 7]) ⟨4, .int 32⟩ 0 =
        .panicked ("idx " ++ toString i ++ " out of range 0.." ++ toString (4 * 2)) ∧
      (codegen_simd_shuffle 4 (⟨.vector ⟨4, .int 32⟩, [1, 2, 3, 4]⟩ : Operand Nat)
        ⟨.vector ⟨4, .int 32⟩, [5, 6, 7, 8]⟩ (some [0, 8, 3, 7]) ⟨4, .int 32⟩ 0).isOk =
        false :=
  c6_shuffle_bounds_amended 4 ⟨4, .int 32⟩ ⟨4, .int 32⟩
    (⟨.vector ⟨4, .int 32⟩, [1, 2, 3, 4]⟩ : Operand Nat)
    ⟨.vector ⟨4, .int 32⟩, [5, 6, 7, 8]⟩ [0, 8, 3, 7] 0
    rfl rfl rfl rfl (by decide) ⟨8, by decide, by decide⟩

/-- Counterexample to C6 as stated: with `lane_count = 4`, the index
`65536` is `≥ 2 * lane_count = 8`, yet the fatal outcome is the u16
narrowing panic `try_from u32`, whose message cites neither the offending
index value nor the valid bound `8`. -/
theorem c6_shuffle_bounds_counterexample :
    codegen_simd_shuffle 1 (⟨.vector ⟨4, .int 32⟩, [1, 2, 3, 4]⟩ : Operand Nat)
      ⟨.vector ⟨4, .int 32⟩, [5, 6, 7, 8]⟩ (some [65536]) ⟨1, .int 32⟩ 0 =
      .panicked "try_from u32" ∧
    citesNat "try_from u32" 65536 = false ∧
    citesNat "try_from u32" 8 = false :=
  ⟨rfl, by decide, by decide⟩

/-- Counterexample to C5 as stated: a shuffle whose index operand is not
a compile-time constant does not produce a fatal (span_fatal) diagnostic;
it hits the internal panic `.expect("simd_shuffle* idx not const")`. -/
theorem c5_shuffle_nonconst_counterexample :
    codegen_simd_shuffle 4 (⟨.vector ⟨4, .int 32⟩, [1, 2, 3, 4]⟩ : Operand Nat)
      ⟨.vector ⟨4, .int 32⟩, [5, 6, 7, 8]⟩ none ⟨4, .int 32⟩ 0 =
      .panicked "simd_shuffle* idx not const" ∧
    (codegen_simd_shuffle 4 (⟨.vector ⟨4, .int 32⟩, [1, 2, 3, 4]⟩ : Operand Nat)
      ⟨.vector ⟨4, .int 32⟩, [5, 6, 7, 8]⟩ none ⟨4, .int 32⟩ 0).isFatalDiag = false :=
  ⟨rfl, rfl⟩

/-- C5 (amended): when the index operand is reported not constant, the
outcome is a fatal user diagnostic for `simd_insert`, an internal
compiler panic (compilation-ending, but not a span_fatal diagnostic) for
`simd_shuffle`, and recoverable for `simd_extract` only: a warning plus a
well-typed placeholder trap value written to the destination so
compilation continues. -/
theorem c5_nonconst_outcomes_amended (vt : VectorType) (n : Nat)
    (x y base v : Operand α) (val : α) (ret_ty : VectorType) (d : α)
    (hx : x.ty = .vector vt) (hy : y.ty = x.ty)
    (hkind : vt.lane_kind = ret_ty.lane_kind) (hn : n = ret_ty.lane_count)
    (hv : v.ty = .vector vt) :
    codegen_simd_insert none base val =
      .fatal "Index argument for `simd_insert` is not a constant" ∧
    codegen_simd_shuffle n x y none ret_ty d =
      .panicked "simd_shuffle* idx not const" ∧
    (codegen_simd_shuffle n x y none ret_ty d).isFatalDiag = false ∧
    codegen_simd_extract none v d =
      .trap ⟨.warn, "Index argument for `simd_extract` is not a constant"⟩ ∧
    (codegen_simd_extract none v d).isTrap = true := by
  have hs : codegen_simd_shuffle n x y none ret_ty d =
      .panicked "simd_shuffle* idx not const" := by
    simp [codegen_simd_shuffle, hx, hy, hkind, hn, simd_size_and_type, OpTy.is_simd]
  have he : codegen_simd_extract none v d =
      .trap ⟨.warn, "Index argument for `simd_extract` is not a constant"⟩ := by
    simp [codegen_simd_extract, hv, OpTy.is_simd]
  exact ⟨rfl, hs, by rw [hs]; rfl, he, by rw [he]; rfl⟩

/-- Witness for C5: concrete vectors of shape 4 x i32 exercise all three
non-constant-index outcomes. -/
theorem c5_nonconst_outcomes_amended_witness :
    codegen_simd_insert none (⟨.vector ⟨4, .int 32⟩, [1, 2, 3, 4]⟩ : Operand Nat) 9 =
      .fatal "Index argument for `simd_insert` is not a constant" ∧
    codegen_simd_shuffle 4 (⟨.vector ⟨4, .int 32⟩, [1, 2, 3, 4]⟩ : Operand Nat)
      ⟨.vector ⟨4, .int 32⟩, [5, 6, 7, 8]⟩ none ⟨4, .int 32⟩ 0 =
      .panicked "simd_shuffle* idx not const" ∧
    (codegen_simd_shuffle 4 (⟨.vector ⟨4, .int 32⟩, [1, 2, 3, 4]⟩ : Operand Nat)
      ⟨.vector ⟨4, .int 32⟩, [5, 6, 7, 8]⟩ none ⟨4, .int 32⟩ 0).isFatalDiag = false ∧
    codegen_simd_extract none (⟨.vector ⟨4, .int 32⟩, [1, 2, 3, 4]⟩ : Operand Nat) 0 =
      .trap ⟨.warn, "Index argument for `simd_extract` is not a constant"⟩ ∧
    (codegen_simd_extract none (⟨.vector ⟨4, .int 32⟩, [1, 2, 3, 4]⟩ : Operand Nat) 0).isTrap =
      true :=
  c5_nonconst_outcomes_amended ⟨4, .int 32⟩ 4
    (⟨.vector ⟨4, .int 32⟩, [1, 2, 3, 4]⟩ : Operand Nat)
    ⟨.vector ⟨4, .int 32⟩, [5, 6, 7, 8]⟩
    (⟨.vector ⟨4, .int 32⟩, [1, 2, 3, 4]⟩ : Operand Nat)
    (⟨.vector ⟨4, .int 32⟩, [1, 2, 3, 4]⟩ : Operand Nat) 9 ⟨4, .int 32⟩ 0
    rfl rfl rfl rfl rfl

/-- C2: for a select over a mask vector `m` and value vectors `a`, `b` of
identical shape, output lane `i` equals `a[i]` when `m[i]` is nonzero and
`b[i]` when it is zero, computed per lane by the conditional-select
primitive, so lane `i` of the result depends only on lane `i` of the
three inputs. -/
theorem c2_select_lanewise (vt : VectorType) (m : Operand Nat) (a b : Operand α)
    (d : α) (hm : m.ty = .vector vt) (ha : a.ty = .vector vt)
    (hb : b.ty = .vector vt) :
    ∃ out, codegen_simd_select m a b d = .ok out ∧
      out.length = vt.lane_count ∧
      ∀ i, i < vt.lane_count →
        out.getD i d =
          if m.lanes.getD i 0 = 0 then b.lanes.getD i d else a.lanes.getD i d := by
  refine ⟨(List.range vt.lane_count).map fun lane =>
    if m.lanes.getD lane 0 = 0 then b.lanes.getD lane d
    else a.lanes.getD lane d, ?_, ?_, ?_⟩
  · simp [codegen_simd_select, hm, ha, hb, simd_size_and_type, OpTy.is_simd]
  · simp
  · intro i hi
    exact range_map_getD _ _ _ _ hi

/-- Witness for C2: the spec's concrete example,
`select([1,0,1], a=[10,20,30], b=[1,2,3]) = [10,2,30]`. -/
theorem c2_select_lanewise_witness :
    codegen_simd_select (⟨.vector ⟨3, .int 32⟩, [1, 0, 1]⟩ : Operand Nat)
      (⟨.vector ⟨3, .int 32⟩, [10, 20, 30]⟩ : Operand Nat)
      ⟨.vector ⟨3, .int 32⟩, [1, 2, 3]⟩ 0 = .ok [10, 2, 30] ∧
    (∃ out, codegen_simd_select (⟨.vector ⟨3, .int 32⟩, [1, 0, 1]⟩ : Operand Nat)
      (⟨.vector ⟨3, .int 32⟩, [10, 20, 30]⟩ : Operand Nat)
      ⟨.vector ⟨3, .int 32⟩, [1, 2, 3]⟩ 0 = .ok out ∧
      out.length = 3 ∧
      ∀ i, i < 3 → out.getD i 0 =
        if ([1, 0, 1].getD i 0 : Nat) = 0 then [1, 2, 3].getD i 0
        else [10, 20, 30].getD i 0) :=
  ⟨by decide, c2_select_lanewise ⟨3, .int 32⟩
    (⟨.vector ⟨3, .int 32⟩, [1, 0, 1]⟩ : Operand Nat)
    (⟨.vector ⟨3, .int 32⟩, [10, 20, 30]⟩ : Operand Nat)
    ⟨.vector ⟨3, .int 32⟩, [1, 2, 3]⟩ 0 rfl rfl rfl⟩

theorem toSigned_inj (w : Nat) (hw : 1 ≤ w) (a b : Nat) (ha : a < 2 ^ w)
    (hb : b < 2 ^ w) : (toSigned w a = toSigned w b) ↔ a = b := by
  have hsplitN : (2 ^ w : Nat) = 2 * 2 ^ (w - 1) := by
    cases w with
    | zero => exact absurd hw (by decide)
    | succ k =>
      rw [pow_succ, Nat.succ_sub_one]
      exact Nat.mul_comm _ _
  have hcast : (2 : Int) ^ w = ((2 ^ w : Nat) : Int) := by push_cast; rfl
  unfold toSigned
  rw [hcast]
  split <;> split <;> omega

/-- C3: every comparison lane result is an all-ones pattern of the full
result lane width when the comparison holds and all-zeros otherwise
(never the scalar 0/1), with unsigned lanes compared by the unsigned
order, signed lanes by the two's-complement signed order, and float
lanes by the IEEE order in which NaN is unordered. -/
theorem c3_cmp_mask_shape (rw w : Nat) (op : CmpIntrinsic) (a b : Nat)
    (fa fb : Option ℚ) (hrw : 2 ≤ rw) (hw : 1 ≤ w)
    (ha : a < 2 ^ w) (hb : b < 2 ^ w) :
    codegen_cmp_lane rw (.uint w) op (.intLane a) (.intLane b) =
      some (if cmpRelInt op (a : Int) (b : Int) then allOnes rw else 0) ∧
    codegen_cmp_lane rw (.int w) op (.intLane a) (.intLane b) =
      some (if cmpRelInt op (toSigned w a) (toSigned w b) then allOnes rw else 0) ∧
    codegen_cmp_lane rw (.float w) op (.floatLane fa) (.floatLane fb) =
      some (if cmpRelFloat op fa fb then allOnes rw else 0) ∧
    allOnes rw ≠ 0 ∧ allOnes rw ≠ 1 := by
  have h4 : 4 ≤ 2 ^ rw := by
    calc (4 : Nat) = 2 ^ 2 := by norm_num
    _ ≤ 2 ^ rw := Nat.pow_le_pow_right (by norm_num) hrw
  refine ⟨?_, ?_, ?_, ?_, ?_⟩
  · have : icmp w (cmp_cc_uint op) a b = cmpRelInt op (a : Int) (b : Int) := by
      cases op <;> simp [icmp, cmp_cc_uint, cmpRelInt]
    simp [codegen_cmp_lane, cmp_mask_lane_eq, this]
  · have : icmp w (cmp_cc_sint op) a b =
        cmpRelInt op (toSigned w a) (toSigned w b) := by
      cases op <;> simp [icmp, cmp_cc_sint, cmpRelInt, toSigned_inj w hw a b ha hb]
    simp [codegen_cmp_lane, cmp_mask_lane_eq, this]
  · have : fcmp (cmp_cc_float op) fa fb = cmpRelFloat op fa fb := by
      cases fa <;> cases fb <;> cases op <;>
        simp [fcmp, cmp_cc_float, cmpRelFloat, cmpRelQ]
    simp [codegen_cmp_lane, cmp_mask_lane_eq, this]
  · simp only [allOnes]
    omega
  · simp only [allOnes]
    omega

/-- Witness for C3: `simd_lt` on unsigned 32-bit lanes `1 < 2` yields the
all-ones 32-bit pattern, and on `2 < 1` yields zero; a float comparison
against NaN yields zero. -/
theorem c3_cmp_mask_shape_witness :
    codegen_cmp_lane 32 (.uint 32) .simd_lt (.intLane 1) (.intLane 2) =
      some (if cmpRelInt .simd_lt (1 : Int) (2 : Int) then allOnes 32 else 0) ∧
    codegen_cmp_lane 32 (.int 32) .simd_lt (.intLane 1) (.intLane 2) =
      some (if cmpRelInt .simd_lt (toSigned 32 1) (toSigned 32 2) then allOnes 32
        else 0) ∧
    codegen_cmp_lane 32 (.float 32) .simd_lt (.floatLane none) (.floatLane (some 0)) =
      some (if cmpRelFloat .simd_lt none (some 0) then allOnes 32 else 0) ∧
    allOnes 32 ≠ 0 ∧ allOnes 32 ≠ 1 :=
  c3_cmp_mask_shape 32 32 .simd_lt 1 2 none (some 0) (by decide) (by decide)
    (by norm_num) (by norm_num)

/-- C4: for every vector `v`, constant index `i < lane_count` and lane
value `val`, `extract(insert(v, i, val), i) = val`, and every lane
`j ≠ i` of `insert(v, i, val)` equals lane `j` of `v` (the base is copied
wholesale, then only lane `i` is overwritten). -/
theorem c4_insert_extract_roundtrip (vt : VectorType) (base : Operand α)
    (val : α) (i : Nat) (d : α) (hty : base.ty = .vector vt)
    (hlen : base.lanes.length = vt.lane_count) (hi : i < vt.lane_count) :
    codegen_simd_insert (some i) base val = .ok (base.lanes.set i val) ∧
    codegen_simd_extract (some i) ⟨base.ty, base.lanes.set i val⟩ d = .ok val ∧
    ∀ j, j ≠ i → (base.lanes.set i val).getD j d = base.lanes.getD j d := by
  have hnle : ¬ vt.lane_count ≤ i := Nat.not_le.mpr hi
  refine ⟨?_, ?_, ?_⟩
  · simp [codegen_simd_insert, hty, simd_size_and_type, hnle]
  · have hget : (base.lanes.set i val)[i]?.getD d = val := by
      rw [← List.getD_eq_getElem?_getD]
      exact getD_set_self _ _ _ _ (by rw [hlen]; exact hi)
    simp [codegen_simd_extract, hty, OpTy.is_simd, simd_size_and_type, hnle, hget]
  · intro j hj
    exact getD_set_ne _ _ _ _ _ hj

/-- Witness for C4: insert `5` at lane `2` of `[9,8,7,6]`, extract lane
`2` back, other lanes unchanged. -/
theorem c4_insert_extract_roundtrip_witness :
    codegen_simd_insert (some 2) (⟨.vector ⟨4, .int 32⟩, [9, 8, 7, 6]⟩ : Operand Nat) 5 =
      .ok ([9, 8, 7, 6].set 2 5) ∧
    codegen_simd_extract (some 2)
      (⟨OpTy.vector ⟨4, .int 32⟩, [9, 8, 7, 6].set 2 5⟩ : Operand Nat) 0 = .ok 5 ∧
    ∀ j, j ≠ 2 → (([9, 8, 7, 6] : List Nat).set 2 5).getD j 0 =
      ([9, 8, 7, 6] : List Nat).getD j 0 :=
  c4_insert_extract_roundtrip ⟨4, .int 32⟩
    (⟨.vector ⟨4, .int 32⟩, [9, 8, 7, 6]⟩ : Operand Nat) 5 2 0 rfl rfl (by decide)

/-- C7 (code-bug evidence): the `simd_insert` arm — marked
`// FIXME validate` in the source — performs no vector-shape validation,
so a non-vector base reaches `simd_size_and_type` and dies in an internal
panic instead of the recoverable call-scoped diagnostic-plus-trap that
the shape validator produces (as `simd_extract` shows on the same
operand). -/
theorem c7_insert_skips_validation :
    codegen_simd_insert (some 0) (⟨.scalar "u32", []⟩ : Operand Nat) 7 =
      .panicked simd_size_panic_msg ∧
    (codegen_simd_insert (some 0) (⟨.scalar "u32", []⟩ : Operand Nat) 7).isTrap =
      false ∧
    codegen_simd_extract (some 0) (⟨.scalar "u32", []⟩ : Operand Nat) 0 =
      .trap (report_simd_type_validation_error "simd_extract" (.scalar "u32")) ∧
    (codegen_simd_extract (some 0) (⟨.scalar "u32", []⟩ : Operand Nat) 0).isTrap =
      true :=
  ⟨rfl, rfl, rfl, rfl⟩

/-- C8: the ordered and unordered variants of reduce-add and reduce-mul
are one and the same handler and produce identical results: a sequential
fold that begins with `combinator(seed, lane[0])` and proceeds
left-to-right through the remaining lanes. -/
theorem c8_reduce_ordered_unordered_identical (vt : VectorType)
    (fadd iadd fmul imul : α → α → α) (v : Operand α) (acc l0 : α)
    (rest : List α) (hty : v.ty = .vector vt) (hlanes : v.lanes = l0 :: rest) :
    codegen_simd_reduce_add_ordered fadd iadd v acc =
      codegen_simd_reduce_add_unordered fadd iadd v acc ∧
    codegen_simd_reduce_mul_ordered fmul imul v acc =
      codegen_simd_reduce_mul_unordered fmul imul v acc ∧
    codegen_simd_reduce_add_ordered fadd iadd v acc =
      .ok (rest.foldl
        (fun x y => if vt.lane_kind.is_floating_point then fadd x y else iadd x y)
        (if vt.lane_kind.is_floating_point then fadd acc l0 else iadd acc l0)) ∧
    codegen_simd_reduce_mul_ordered fmul imul v acc =
      .ok (rest.foldl
        (fun x y => if vt.lane_kind.is_floating_point then fmul x y else imul x y)
        (if vt.lane_kind.is_floating_point then fmul acc l0 else imul acc l0)) := by
  refine ⟨?_, ?_, ?_, ?_⟩
  · simp [codegen_simd_reduce_add_ordered, codegen_simd_reduce_add_unordered,
      codegen_simd_reduce_add, hty, OpTy.is_simd, simd_size_and_type]
  · simp [codegen_simd_reduce_mul_ordered, codegen_simd_reduce_mul_unordered,
      codegen_simd_reduce_mul, hty, OpTy.is_simd, simd_size_and_type]
  · simp [codegen_simd_reduce_add_ordered, codegen_simd_reduce_add,
      hty, OpTy.is_simd, simd_size_and_type, simd_reduce, hlanes]
  · simp [codegen_simd_reduce_mul_ordered, codegen_simd_reduce_mul,
      hty, OpTy.is_simd, simd_size_and_type, simd_reduce, hlanes]

/-- Witness for C8: the spec's concrete example, ordered reduce-add over
`[1.0, 2.0, 3.0]` with seed `0.0`, yields `6.0`, and the unordered
variant coincides with it. -/
theorem c8_reduce_ordered_unordered_identical_witness :
    codegen_simd_reduce_add_ordered (α := ℚ) (· + ·) (· + ·)
      ⟨.vector ⟨3, .float 32⟩, [1, 2, 3]⟩ 0 = .ok 6 ∧
    codegen_simd_reduce_add_ordered (α := ℚ) (· + ·) (· + ·)
      ⟨.vector ⟨3, .float 32⟩, [1, 2, 3]⟩ 0 =
      codegen_simd_reduce_add_unordered (α := ℚ) (· + ·) (· + ·)
        ⟨.vector ⟨3, .float 32⟩, [1, 2, 3]⟩ 0 := by
  have h := c8_reduce_ordered_unordered_identical ⟨3, .float 32⟩
    (α := ℚ) (· + ·) (· + ·) (· * ·) (· * ·)
    ⟨.vector ⟨3, .float 32⟩, [1, 2, 3]⟩ 0 1 [2, 3] rfl rfl
  refine ⟨?_, h.1⟩
  rw [h.2.2.1]
  norm_num [LaneKind.is_floating_point]

/-- Counterexample to C9 as stated: `simd_select` accepts a mask vector
whose `VectorType` differs from the value vectors' (here a 4 x i64 mask
against 4 x f32 values) and lowers it without any backend-internal
error. -/
theorem c9_select_mask_shape_counterexample :
    codegen_simd_select (⟨.vector ⟨4, .int 64⟩, [1, 0, 1, 0]⟩ : Operand Nat)
      (⟨.vector ⟨4, .float 32⟩, [10, 20, 30, 40]⟩ : Operand Nat)
      ⟨.vector ⟨4, .float 32⟩, [1, 2, 3, 4]⟩ 0 = .ok [10, 2, 30, 4] ∧
    decide (OpTy.vector ⟨4, LaneKind.int 64⟩ = OpTy.vector ⟨4, LaneKind.float 32⟩) =
      false ∧
    (codegen_simd_select (⟨.vector ⟨4, .int 64⟩, [1, 0, 1, 0]⟩ : Operand Nat)
      (⟨.vector ⟨4, .float 32⟩, [10, 20, 30, 40]⟩ : Operand Nat)
      ⟨.vector ⟨4, .float 32⟩, [1, 2, 3, 4]⟩ 0).isOk = true :=
  ⟨by decide, by decide, by decide⟩

/-- C9 (amended): `simd_select` requires identical `VectorType` across
its two value vectors (the mask is only required to be a SIMD vector and
may have a different `VectorType`), and `simd_fma` across all three of
its operands; a mismatch is surfaced as a backend-internal assertion
panic, not as a user diagnostic. -/
theorem c9_shape_assertions_amended (m : Operand Nat) (a b : Operand α)
    (fmul fadd : α → α → α) (a2 b2 c2 : Operand α) (ret_ty : VectorType) (d : α)
    (hm : m.ty.is_simd = true) (ha : a.ty.is_simd = true) (hab : a.ty ≠ b.ty)
    (ha2 : a2.ty.is_simd = true) (hab2 : a2.ty = b2.ty) (hac2 : a2.ty ≠ c2.ty) :
    codegen_simd_select m a b d =
      .panicked "assertion failed: a.layout() == b.layout()" ∧
    (codegen_simd_select m a b d).isTrap = false ∧
    (codegen_simd_select m a b d).isFatalDiag = false ∧
    codegen_simd_fma fmul fadd a b b ret_ty d =
      .panicked "assertion failed: a.layout() == b.layout()" ∧
    codegen_simd_fma fmul fadd a2 b2 c2 ret_ty d =
      .panicked "assertion failed: a.layout() == c.layout()" := by
  have hsel : codegen_simd_select m a b d =
      .panicked "assertion failed: a.layout() == b.layout()" := by
    simp [codegen_simd_select, hm, ha, hab]
  refine ⟨hsel, by rw [hsel]; rfl, by rw [hsel]; rfl, ?_, ?_⟩
  · simp [codegen_simd_fma, ha, hab]
  · have hb2 : b2.ty.is_simd = true := by rw [← hab2]; exact ha2
    have hbc : ¬ b2.ty = c2.ty := by rw [← hab2]; exact hac2
    simp [codegen_simd_fma, ha2, hab2, hb2, hbc]

/-- Witness for C9: concrete mismatched operands hit the assertions. -/
theorem c9_shape_assertions_amended_witness :
    codegen_simd_select (⟨.vector ⟨4, .int 32⟩, [1, 0, 1, 0]⟩ : Operand Nat)
      (⟨.vector ⟨4, .float 32⟩, [10, 20, 30, 40]⟩ : Operand Nat)
      ⟨.vector ⟨2, .float 32⟩, [1, 2]⟩ 0 =
      .panicked "assertion failed: a.layout() == b.layout()" ∧
    (codegen_simd_select (⟨.vector ⟨4, .int 32⟩, [1, 0, 1, 0]⟩ : Operand Nat)
      (⟨.vector ⟨4, .float 32⟩, [10, 20, 30, 40]⟩ : Operand Nat)
      ⟨.vector ⟨2, .float 32⟩, [1, 2]⟩ 0).isTrap = false ∧
    (codegen_simd_select (⟨.vector ⟨4, .int 32⟩, [1, 0, 1, 0]⟩ : Operand Nat)
      (⟨.vector ⟨4, .float 32⟩, [10, 20, 30, 40]⟩ : Operand Nat)
      ⟨.vector ⟨2, .float 32⟩, [1, 2]⟩ 0).isFatalDiag = false ∧
    codegen_simd_fma (α := Nat) (fun x _ => x) (fun x _ => x)
      (⟨.vector ⟨4, .float 32⟩, [10, 20, 30, 40]⟩ : Operand Nat)
      ⟨.vector ⟨2, .float 32⟩, [1, 2]⟩ ⟨.vector ⟨2, .float 32⟩, [1, 2]⟩
      ⟨4, .float 32⟩ 0 =
      .panicked "assertion failed: a.layout() == b.layout()" ∧
    codegen_simd_fma (α := Nat) (fun x _ => x) (fun x _ => x)
      (⟨.vector ⟨4, .float 32⟩, [10, 20, 30, 40]⟩ : Operand Nat)
      (⟨.vector ⟨4, .float 32⟩, [10, 20, 30, 40]⟩ : Operand Nat)
      ⟨.vector ⟨2, .float 32⟩, [1, 2]⟩ ⟨4, .float 32⟩ 0 =
      .panicked "assertion failed: a.layout() == c.layout()" :=
  c9_shape_assertions_amended
    (⟨.vector ⟨4, .int 32⟩, [1, 0, 1, 0]⟩ : Operand Nat)
    (⟨.vector ⟨4, .float 32⟩, [10, 20, 30, 40]⟩ : Operand Nat)
    ⟨.vector ⟨2, .float 32⟩, [1, 2]⟩ (fun x _ => x) (fun x _ => x)
    (⟨.vector ⟨4, .float 32⟩, [10, 20, 30, 40]⟩ : Operand Nat)
    (⟨.vector ⟨4, .float 32⟩, [10, 20, 30, 40]⟩ : Operand Nat)
    ⟨.vector ⟨2, .float 32⟩, [1, 2]⟩ ⟨4, .float 32⟩ 0
    rfl rfl (by decide) rfl rfl (by decide)

/-- C10: `simd_reduce_min`/`simd_reduce_max` fold lanes with the
compare-then-select step `select(cmp(a, b), a, b)`: whenever the
comparison is false the second operand `b` is kept, and for float lanes
a comparison involving NaN is unordered, hence false, so the second
operand is selected at that step — no NaN special-casing. -/
theorem c10_reduce_minmax_select_step (a b : Option ℚ) (q : ℚ) (w ia ib : Nat)
    (v : Operand (Option ℚ)) (vt : VectorType) (l0 : Option ℚ)
    (rest : List (Option ℚ)) (hty : v.ty = .vector vt) (hlanes : v.lanes = l0 :: rest)
    (hlt : fcmp .LessThan a b = false) (hgt : fcmp .GreaterThan a b = false)
    (hslt : icmp w .SignedLessThan ia ib = false)
    (hult : icmp w .UnsignedLessThan ia ib = false) :
    reduce_min_comb_float a b = b ∧
    reduce_max_comb_float a b = b ∧
    reduce_min_comb_sint w ia ib = ib ∧
    reduce_min_comb_uint w ia ib = ib ∧
    reduce_min_comb_float none (some q) = some q ∧
    reduce_min_comb_float (some q) none = none ∧
    reduce_max_comb_float none (some q) = some q ∧
    reduce_max_comb_float (some q) none = none ∧
    codegen_simd_reduce_min_float v = .ok (rest.foldl reduce_min_comb_float l0) ∧
    codegen_simd_reduce_max_float v = .ok (rest.foldl reduce_max_comb_float l0) := by
  refine ⟨?_, ?_, ?_, ?_, rfl, rfl, rfl, rfl, ?_, ?_⟩
  · simp [reduce_min_comb_float, hlt]
  · simp [reduce_max_comb_float, hgt]
  · simp [reduce_min_comb_sint, hslt]
  · simp [reduce_min_comb_uint, hult]
  · simp [codegen_simd_reduce_min_float, hty, OpTy.is_simd, simd_reduce, hlanes]
  · simp [codegen_simd_reduce_max_float, hty, OpTy.is_simd, simd_reduce, hlanes]

/-- Witness for C10: with lanes `[1.0, NaN]`, both reduce-min and
reduce-max select the NaN at the fold step because the comparison is
unordered. -/
theorem c10_reduce_minmax_select_step_witness :
    reduce_min_comb_float (some 1) (some 1) = some 1 ∧
    reduce_max_comb_float (some 1) (some 1) = some 1 ∧
    reduce_min_comb_sint 32 5 5 = 5 ∧
    reduce_min_comb_uint 32 5 5 = 5 ∧
    reduce_min_comb_float none (some 2) = some 2 ∧
    reduce_min_comb_float (some 2) none = none ∧
    reduce_max_comb_float none (some 2) = some 2 ∧
    reduce_max_comb_float (some 2) none = none ∧
    codegen_simd_reduce_min_float ⟨.vector ⟨2, .float 32⟩, [some 1, none]⟩ =
      .ok ([none].foldl reduce_min_comb_float (some 1)) ∧
    codegen_simd_reduce_max_float ⟨.vector ⟨2, .float 32⟩, [some 1, none]⟩ =
      .ok ([none].foldl reduce_max_comb_float (some 1)) :=
  c10_reduce_minmax_select_step (some 1) (some 1) 2 32 5 5
    ⟨.vector ⟨2, .float 32⟩, [some 1, none]⟩ ⟨2, .float 32⟩ (some 1) [none]
    rfl rfl (by decide) (by decide) (by decide) (by decide)
